import Mathlib

/-!
Shallow embedding of `arch/arm64/kernel/smp.c` (secondary-core bring-up,
hotplug teardown, and the IPI dispatch engine), together with theorems
checking the natural-language specification against the code.

Stateful C code is modelled by explicit state passing: each global object
touched by a function appears as a field of an explicit state or
environment structure, and the function returns the updated state plus the
observable events (diagnostic reports, cross-call invocations).  Values
written concurrently by another core (the boot-status word, the online
flag, the set of cores that answer a backtrace) are inputs of the
environment, since the code only ever observes them at one program point.
-/

namespace Smp

/-- Modelled from the spec: kernel errno values (`<asm-generic/errno.h>` is
not part of this repository).  Only being nonzero, and distinctness, matter
to the control flow below. -/
def EIO_val : Int := 5

/-- Modelled from the spec: `EOPNOTSUPP`, the unsupported-hotplug error. -/
def EOPNOTSUPP : Int := 95

/-- Modelled from the spec: `ENOSYS`. -/
def ENOSYS : Int := 38

/-- Modelled from the spec: the five boot-status values of the BootStatus
word (`<asm/smp.h>` is not part of this repository).  `CPU_BOOT_SUCCESS`
is the zero value — the C guard `if (ret && status)` tests the word against
zero — and the others are the distinct nonzero values of that header. -/
def CPU_BOOT_SUCCESS : Int := 0

/-- Modelled from the spec: initial boot-status value set by the
orchestrator before release. -/
def CPU_MMU_OFF : Int := -1

/-- Modelled from the spec: status written by a core that failed early and
asks to be killed. -/
def CPU_KILL_ME : Int := 1

/-- Modelled from the spec: status of a core alive but stuck in kernel
text. -/
def CPU_STUCK_IN_KERNEL : Int := 2

/-- Modelled from the spec: status of a core that detected a fatal
configuration mismatch. -/
def CPU_PANIC_KERNEL : Int := 3

/-- The per-core bring-up operation set (`struct cpu_operations`).  Fallible
operations are functions from the logical cpu number to a C return code;
optional ones are `Option`.  `cpu_die` never returns on success, so only its
presence (pointer non-null) is observable to the code modelled here. -/
structure CpuOps where
  cpu_boot : Option (Nat → Int)
  cpu_disable : Option (Nat → Int)
  cpu_die : Bool
  cpu_kill : Option (Nat → Int)

/-- `op_cpu_kill` (CONFIG_HOTPLUG_CPU version, smp.c lines 336–347): with no
`cpu_kill` method the dying core is assumed really dead and 0 (success) is
returned; otherwise the firmware call's return code is passed through. -/
def op_cpu_kill (ops : CpuOps) (cpu : Nat) : Int :=
  match ops.cpu_kill with
  | none => 0
  | some k => k cpu

/-- `boot_secondary` (smp.c lines 136–142). -/
def boot_secondary (ops : CpuOps) (cpu : Nat) : Int :=
  match ops.cpu_boot with
  | some b => b cpu
  | none => -EOPNOTSUPP

/-- The `secondary_data` HandoffBlock: execution context (idle task), initial
stack pointer, and the boot-status word. -/
structure SecondaryData where
  task : Option Nat
  stack : Option Nat
  status : Int

/-- Diagnostic reports printed by `__cpu_up` (its `pr_err` / `pr_crit`
messages), kept as observable events. -/
inductive Report
  | failedToBoot
  | failedToComeOnline
  | unknownState
  | diedDuringBoot
  | mayNotHaveShutDownCleanly
  | stuckInKernel
deriving Repr, DecidableEq

/-- Outcome of `__cpu_up`: either the function returns a code, or it calls
`panic()` and never returns. -/
inductive CpuUpOutcome
  | ret (code : Int)
  | panicked
deriving Repr, DecidableEq

/-- Everything observable about one `__cpu_up` attempt: the outcome, the
final contents of `secondary_data`, the increment applied to the
process-wide `cpus_stuck_in_kernel` counter, and the diagnostics printed. -/
structure CpuUpResult where
  outcome : CpuUpOutcome
  secondary_data : SecondaryData
  stuck_delta : Nat
  reports : List Report

/-- Environment of one bring-up attempt: the target's ops, and the values
the orchestrator observes, which are written concurrently by the target
core — whether `cpu_online(cpu)` holds once the bounded wait ends, the
`READ_ONCE(secondary_data.status)` result, and the early-stage fallback
status word `__early_cpu_boot_status`.  `task_stack_page` and
`THREAD_START_SP` model the stack-address computation of line 157. -/
structure CpuUpEnv where
  ops : CpuOps
  online : Bool
  observed_status : Int
  early_boot_status : Int
  task_stack_page : Nat → Nat
  THREAD_START_SP : Nat

/-- `__cpu_up` (smp.c lines 147–216).  Populates `secondary_data`, sets the
status word to `CPU_MMU_OFF`, invokes the platform boot operation; on
refusal returns at once (line 183) without clearing `secondary_data`; on
release waits for the completion, treats the core as up iff it is online
at the end of the wait, clears the context/stack fields, and classifies
any failure from the (possibly early-stage) status word. -/
def __cpu_up (cpu : Nat) (idle : Nat) (env : CpuUpEnv) : CpuUpResult :=
  let sd : SecondaryData :=
    { task := some idle
      stack := some (env.task_stack_page idle + env.THREAD_START_SP)
      status := CPU_MMU_OFF }
  let ret := boot_secondary env.ops cpu
  if ret = 0 then
    let ret2 : Int := if env.online then 0 else -EIO_val
    let reports0 : List Report := if env.online then [] else [Report.failedToComeOnline]
    let sd2 : SecondaryData := { task := none, stack := none, status := env.observed_status }
    if ret2 ≠ 0 ∧ env.observed_status ≠ 0 then
      let status2 :=
        if env.observed_status = CPU_MMU_OFF then env.early_boot_status
        else env.observed_status
      if status2 = CPU_KILL_ME then
        if op_cpu_kill env.ops cpu = 0 then
          { outcome := CpuUpOutcome.ret ret2, secondary_data := sd2, stuck_delta := 0
            reports := reports0 ++ [Report.diedDuringBoot] }
        else
          { outcome := CpuUpOutcome.ret ret2, secondary_data := sd2, stuck_delta := 1
            reports := reports0 ++ [Report.mayNotHaveShutDownCleanly, Report.stuckInKernel] }
      else if status2 = CPU_STUCK_IN_KERNEL then
        { outcome := CpuUpOutcome.ret ret2, secondary_data := sd2, stuck_delta := 1
          reports := reports0 ++ [Report.stuckInKernel] }
      else if status2 = CPU_PANIC_KERNEL then
        { outcome := CpuUpOutcome.panicked, secondary_data := sd2, stuck_delta := 0
          reports := reports0 }
      else
        { outcome := CpuUpOutcome.ret ret2, secondary_data := sd2, stuck_delta := 0
          reports := reports0 ++ [Report.unknownState] }
    else
      { outcome := CpuUpOutcome.ret ret2, secondary_data := sd2, stuck_delta := 0
        reports := reports0 }
  else
    { outcome := CpuUpOutcome.ret ret, secondary_data := sd, stuck_delta := 0
      reports := [Report.failedToBoot] }

/-- Whether a possibly-absent ops set carries a `cpu_die` method, i.e. the C
test `cpu_ops[cpu] && cpu_ops[cpu]->cpu_die`. -/
def has_cpu_die : Option CpuOps → Bool
  | none => false
  | some o => o.cpu_die

/-- `op_cpu_disable` (smp.c lines 291–308): without a `cpu_die` method the
hot unplug is aborted with `-EOPNOTSUPP` before the point of no return;
otherwise the optional mechanism-specific `cpu_disable` pre-check runs. -/
def op_cpu_disable (ops : Option CpuOps) (cpu : Nat) : Int :=
  if has_cpu_die ops = false then -EOPNOTSUPP
  else
    match ops with
    | none => -EOPNOTSUPP
    | some o =>
      match o.cpu_disable with
      | some d => d cpu
      | none => 0

/-- State touched by `__cpu_disable`: the per-core online flags and the list
of cores whose interrupts have been migrated away. -/
structure HotplugState where
  online : Nat → Bool
  irqs_migrated_off : List Nat

/-- `__cpu_disable` (smp.c lines 313–334): run the pre-disable check; on any
failure return its code with the state untouched; on success clear this
core's online flag and migrate all interrupts off it. -/
def __cpu_disable (cpu : Nat) (ops : Option CpuOps) (s : HotplugState) :
    Int × HotplugState :=
  let ret := op_cpu_disable ops cpu
  if ret ≠ 0 then (ret, s)
  else
    (0, { online := fun c => if c = cpu then false else s.online c
          irqs_migrated_off := cpu :: s.irqs_migrated_off })

/-- Environment of the stuck-core query: the `cpus_stuck_in_kernel` counter,
the number of possible cores, the configured core capacity, the core the
query runs on, and the global `cpu_ops` table. -/
structure StuckEnv where
  cpus_stuck_in_kernel : Nat
  num_possible_cpus : Nat
  nr_cpus : Nat
  this_cpu : Nat
  cpu_ops : Nat → Option CpuOps

/-- `have_cpu_die` (smp.c lines 1058–1067): tests the `cpu_die` method of
the core the caller happens to run on (`raw_smp_processor_id()`), not of
every core. -/
def have_cpu_die (env : StuckEnv) : Bool :=
  has_cpu_die (env.cpu_ops env.this_cpu)

/-- `cpus_are_stuck_in_kernel` (smp.c lines 1069–1074). -/
def cpus_are_stuck_in_kernel (env : StuckEnv) : Bool :=
  let smp_spin_tables := decide (env.num_possible_cpus > 1) && !(have_cpu_die env)
  decide (env.cpus_stuck_in_kernel ≠ 0) || smp_spin_tables

/-- The stuck-core predicate as the specification words it, for comparison
with `cpus_are_stuck_in_kernel`: counter positive, OR more than one core
possible and no die operation available anywhere (on any configured
core). -/
def cpus_are_stuck_in_kernel_specversion (env : StuckEnv) : Bool :=
  decide (env.cpus_stuck_in_kernel > 0) ||
    (decide (env.num_possible_cpus > 1) &&
      (List.range env.nr_cpus).all (fun c => !has_cpu_die (env.cpu_ops c)))

/-- Modelled from the spec: `MPIDR_HWID_BITMASK` of `<asm/cputype.h>` (not
in this repository) — the affinity bits of an MPIDR value. -/
def MPIDR_HWID_BITMASK : Nat := 0xff00ffffff

/-- Modelled from the spec: `INVALID_HWID` sentinel (`ULONG_MAX`), the
"unassigned" value of a `cpu_logical_map` entry. -/
def INVALID_HWID : Nat := 2 ^ 64 - 1

/-- The non-affinity bits test `hwid & ~MPIDR_HWID_BITMASK`, over 64-bit
words. -/
def mpidr_invalid_bits (hwid : Nat) : Bool :=
  hwid &&& ((2 ^ 64 - 1) ^^^ MPIDR_HWID_BITMASK) ≠ 0

/-- State built up by the topology enumerator: the logical-index-to-MPIDR
map, the boot-core-found flag, and the running count of assigned (or merely
counted) records. -/
structure EnumState where
  cpu_logical_map : Nat → Nat
  bootcpu_valid : Bool
  cpu_count : Nat

/-- `is_mpidr_duplicate` (smp.c lines 493–501): scan logical indices
`1 ≤ i < min cpu NR_CPUS` for an entry equal to `hwid`. -/
def is_mpidr_duplicate (map : Nat → Nat) (NR_CPUS cpu hwid : Nat) : Bool :=
  (List.range (min cpu NR_CPUS)).any (fun i => decide (1 ≤ i) && decide (map i = hwid))

/-- One MADT processor record: its MPIDR and the `ACPI_MADT_ENABLED` bit. -/
structure MadtRecord where
  arm_mpidr : Nat
  enabled : Bool

/-- `acpi_map_gic_cpu_interface` (smp.c lines 530–582): skip disabled
records; reject invalid MPIDRs; drop duplicates; bind the boot core's MPIDR
to logical index 0 exactly once (a second match is dropped as a duplicate
boot record); otherwise assign the next logical index while capacity
remains.  Node-map bookkeeping and the parking-protocol mailbox are
external collaborators and carry no state here. -/
def acpi_map_gic_cpu_interface (NR_CPUS : Nat) (p : MadtRecord) (s : EnumState) :
    EnumState :=
  let hwid := p.arm_mpidr
  if p.enabled = false then s
  else if mpidr_invalid_bits hwid || decide (hwid = INVALID_HWID) then s
  else if is_mpidr_duplicate s.cpu_logical_map NR_CPUS s.cpu_count hwid then s
  else if s.cpu_logical_map 0 = hwid then
    if s.bootcpu_valid then s
    else { s with bootcpu_valid := true }
  else if s.cpu_count ≥ NR_CPUS then s
  else
    { cpu_logical_map := fun i => if i = s.cpu_count then hwid else s.cpu_logical_map i
      bootcpu_valid := s.bootcpu_valid
      cpu_count := s.cpu_count + 1 }

/-- The MADT walk of `smp_init_cpus`: fold the parser over the record
sequence in order. -/
def acpi_parse_records (NR_CPUS : Nat) (recs : List MadtRecord) (s : EnumState) :
    EnumState :=
  recs.foldl (fun st r => acpi_map_gic_cpu_interface NR_CPUS r st) s

/-- State before enumeration: `cpu_logical_map(0)` holds the boot core's
MPIDR, every other entry is `INVALID_HWID`, `bootcpu_valid` is false, and
the static `cpu_count` starts at 1. -/
def initial_enum_state (boot_hwid : Nat) : EnumState :=
  { cpu_logical_map := fun i => if i = 0 then boot_hwid else INVALID_HWID
    bootcpu_valid := false
    cpu_count := 1 }

/-- The fixed IPI message kinds (`enum ipi_msg_type`). -/
inductive IpiMsg
  | resched
  | callFunc
  | stop
  | timer
  | irqWork
  | wakeup
  | backtrace
deriving Repr, DecidableEq

/-- Bump the per-kind receive counter (`__inc_irq_stat`). -/
def bump_irq_stat (f : IpiMsg → Nat) (m : IpiMsg) : IpiMsg → Nat :=
  fun k => if k = m then f k + 1 else f k

/-- The receiving core's view of the state `handle_IPI` touches: its own
pending-IPI flag, its active flag, its per-kind receive counters, and the
global backtrace outstanding set. -/
structure CoreState where
  cpu : Nat
  pending_ipi : Bool
  active : Bool
  irq_stat : IpiMsg → Nat
  backtrace_mask : List Nat

/-- What a run of `handle_IPI` does: either it returns (with the state at
return), or it enters the unbounded `while (1) cpu_relax();` loop of
`ipi_cpu_stop` and never returns (with the state at the loop entry). -/
inductive HandlerOutcome
  | returned (s : CoreState)
  | spins (s : CoreState)

/-- Whether the handler run terminated. -/
def HandlerOutcome.isReturned : HandlerOutcome → Bool
  | HandlerOutcome.returned _ => true
  | HandlerOutcome.spins _ => false

/-- The core state the handler run ended in (at return, or at entry of the
infinite loop). -/
def HandlerOutcome.state : HandlerOutcome → CoreState
  | HandlerOutcome.returned s => s
  | HandlerOutcome.spins s => s

/-- `ipi_cpu_stop` (smp.c lines 840–860): dump diagnostics under the stop
lock (output only, no modelled state), mark the core inactive, disable
interrupts, and spin forever. -/
def ipi_cpu_stop (s : CoreState) : CoreState :=
  { s with active := false }

/-- `ipi_cpu_backtrace` (smp.c lines 904–913): if this core is still in the
outstanding set, dump registers under the backtrace lock and remove
itself. -/
def ipi_cpu_backtrace (s : CoreState) : CoreState :=
  if s.cpu ∈ s.backtrace_mask then
    { s with backtrace_mask := s.backtrace_mask.erase s.cpu }
  else s

/-- `handle_IPI` (smp.c lines 931–990): bump the per-kind counter, dispatch
by kind (scheduler, generic call runner, timer broadcast, deferred work and
wake-up are external collaborators with no modelled state), and clear this
core's pending flag at the end — a point the Stop kind never reaches,
because `ipi_cpu_stop` spins forever. -/
def handle_IPI (msg : IpiMsg) (s : CoreState) : HandlerOutcome :=
  let s1 : CoreState := { s with irq_stat := bump_irq_stat s.irq_stat msg }
  match msg with
  | IpiMsg.stop => HandlerOutcome.spins (ipi_cpu_stop s1)
  | IpiMsg.backtrace =>
      let s2 := ipi_cpu_backtrace s1
      HandlerOutcome.returned { s2 with pending_ipi := false }
  | _ => HandlerOutcome.returned { s1 with pending_ipi := false }

/-- Observable events of the broadcast paths: a synchronous dump of the
calling core, or one invocation of the platform cross-call primitive with
a target mask and a message kind. -/
inductive IpiEvent
  | dumpSelf (cpu : Nat)
  | crossCall (mask : List Nat) (kind : IpiMsg)
deriving Repr, DecidableEq

/-- `smp_cross_call` (smp.c lines 767–771): trace, then one invocation of
the platform primitive `__smp_cross_call` with the full mask and kind. -/
def smp_cross_call (mask : List Nat) (kind : IpiMsg) : List IpiEvent :=
  [IpiEvent.crossCall mask kind]

/-- The per-core flag writes of `smp_cross_call_common`'s
`for_each_cpu(cpu, cpumask) per_cpu(pending_ipi, cpu) = true;` loop, one
core at a time in mask order. -/
def set_pending_each (mask : List Nat) (pending : Nat → Bool) : Nat → Bool :=
  match mask with
  | [] => pending
  | c :: rest => set_pending_each rest (fun x => if x = c then true else pending x)

/-- `smp_cross_call_common` (smp.c lines 773–782): mark every targeted
core's pending flag, then issue the cross call once. -/
def smp_cross_call_common (mask : List Nat) (kind : IpiMsg) (pending : Nat → Bool) :
    (Nat → Bool) × List IpiEvent :=
  (set_pending_each mask pending, smp_cross_call mask kind)

/-- The global state `smp_send_all_cpu_backtrace` touches: the single-flight
token `backtrace_flag`, the outstanding set `backtrace_mask`, and the
per-core pending-IPI flags (which this path never writes). -/
structure BtState where
  backtrace_flag : Bool
  backtrace_mask : List Nat
  pending_ipi : Nat → Bool

/-- `smp_send_all_cpu_backtrace` (smp.c lines 868–899): test-and-set of the
single-flight token (a second concurrent caller returns at once, with no
other effect); copy the online mask minus self into the outstanding set;
dump self; issue the cross call — only when the set is nonempty, and
directly through `smp_cross_call`, never touching the pending flags;
busy-wait up to the bound while other cores remove themselves (modelled by
the oracle `responders`, the cores whose handler ran inside the window);
finally clear the token.  `online` lists the online cores;
the result pairs the final state with the events in order. -/
def smp_send_all_cpu_backtrace (this_cpu : Nat) (online : List Nat)
    (responders : List Nat) (s : BtState) : BtState × List IpiEvent :=
  if s.backtrace_flag then (s, [])
  else
    let mask0 := online.filter (fun c => decide (c ≠ this_cpu))
    let callEvents := if mask0.isEmpty then [] else smp_cross_call mask0 IpiMsg.backtrace
    let maskAfter := mask0.filter (fun c => decide (c ∉ responders))
    ({ backtrace_flag := false, backtrace_mask := maskAfter, pending_ipi := s.pending_ipi },
      IpiEvent.dumpSelf this_cpu :: callEvents)

/-! Concrete instances used to evaluate the model. -/

/-- Ops whose boot succeeds but whose firmware kill call fails. -/
def opsKillFail : CpuOps :=
  { cpu_boot := some fun _ => 0, cpu_disable := none, cpu_die := true
    cpu_kill := some fun _ => -1 }

/-- A bring-up attempt where boot is released, the core never comes online,
the status word reads `CPU_KILL_ME`, and the firmware kill fails. -/
def envKillFail : CpuUpEnv :=
  { ops := opsKillFail, online := false, observed_status := CPU_KILL_ME
    early_boot_status := CPU_BOOT_SUCCESS
    task_stack_page := fun i => 100 * i, THREAD_START_SP := 16 }

/-- Ops whose platform boot operation refuses to release the core. -/
def opsRefuse : CpuOps :=
  { cpu_boot := some fun _ => -5, cpu_disable := none, cpu_die := true, cpu_kill := none }

/-- A bring-up attempt whose boot operation refuses. -/
def envRefuse : CpuUpEnv :=
  { ops := opsRefuse, online := false, observed_status := CPU_MMU_OFF
    early_boot_status := CPU_MMU_OFF
    task_stack_page := fun i => 100 * i, THREAD_START_SP := 16 }

/-- Ops with no firmware kill method. -/
def opsNoKill : CpuOps :=
  { cpu_boot := some fun _ => 0, cpu_disable := none, cpu_die := true, cpu_kill := none }

/-- A bring-up attempt on a core without a kill method that fails with
`CPU_KILL_ME`. -/
def envNoKill : CpuUpEnv :=
  { ops := opsNoKill, online := false, observed_status := CPU_KILL_ME
    early_boot_status := CPU_BOOT_SUCCESS
    task_stack_page := fun i => 100 * i, THREAD_START_SP := 16 }

/-- Ops carrying a `cpu_die` method. -/
def opsWithDie : CpuOps :=
  { cpu_boot := none, cpu_disable := none, cpu_die := true, cpu_kill := none }

/-- Ops lacking a `cpu_die` method. -/
def opsNoDie : CpuOps :=
  { cpu_boot := none, cpu_disable := none, cpu_die := false, cpu_kill := none }

/-- Two possible cores, no core stuck, the calling core lacks a die method
while the other core has one. -/
def stuckEnvMixed : StuckEnv :=
  { cpus_stuck_in_kernel := 0, num_possible_cpus := 2, nr_cpus := 2, this_cpu := 0
    cpu_ops := fun c => if c = 0 then some opsNoDie else some opsWithDie }

/-- Two possible cores, no core stuck, every core has a die method. -/
def stuckEnvAllDie : StuckEnv :=
  { cpus_stuck_in_kernel := 0, num_possible_cpus := 2, nr_cpus := 2, this_cpu := 0
    cpu_ops := fun _ => some opsWithDie }

/-- A core with a pending IPI, active, an empty backtrace set. -/
def coreStopState : CoreState :=
  { cpu := 1, pending_ipi := true, active := true, irq_stat := fun _ => 0
    backtrace_mask := [] }

/-- Idle backtrace machinery: token clear, set empty, no pending flags. -/
def btStart : BtState :=
  { backtrace_flag := false, backtrace_mask := [], pending_ipi := fun _ => false }

/-- Backtrace machinery with the single-flight token already held. -/
def btBusy : BtState :=
  { backtrace_flag := true, backtrace_mask := [3], pending_ipi := fun _ => false }

/-- All-online hotplug state with no interrupts migrated yet. -/
def hotplugS0 : HotplugState :=
  { online := fun _ => true, irqs_migrated_off := [] }

/-- The enumeration scenario of the spec: records
`[(0xA,enabled),(0xB,enabled),(0xA,enabled)]`, boot core id `0xA`,
capacity 8. -/
def enumScenarioResult : EnumState :=
  acpi_parse_records 8 [⟨0xA, true⟩, ⟨0xB, true⟩, ⟨0xA, true⟩] (initial_enum_state 0xA)

/-- The same scenario with one further record `(0xC,enabled)`, witnessing
that the duplicate drop does not abort the walk. -/
def enumScenarioContinued : EnumState :=
  acpi_parse_records 8 [⟨0xA, true⟩, ⟨0xB, true⟩, ⟨0xA, true⟩, ⟨0xC, true⟩]
    (initial_enum_state 0xA)

/-! Theorems settling the claims. -/

/-- C1 counterexample: with boot released, the core offline, BootStatus
`CPU_KILL_ME` and a failing firmware kill, `__cpu_up` reports
may-not-have-shut-down-cleanly (and stuck-in-kernel), not died-during-boot
— the opposite of the claim, which maps a failing kill to
`DiedDuringBoot`. -/
theorem killme_swap_cex :
    op_cpu_kill envKillFail.ops 1 ≠ 0 ∧
    (__cpu_up 1 5 envKillFail).reports =
      [Report.failedToComeOnline, Report.mayNotHaveShutDownCleanly, Report.stuckInKernel] ∧
    Report.diedDuringBoot ∉ (__cpu_up 1 5 envKillFail).reports := by
  decide

/-- C6: enumerating `[(0xA,enabled),(0xB,enabled),(0xA,enabled)]` with boot
core id `0xA` leaves index 0 bound to `0xA`, assigns index 1 to `0xB`,
drops the duplicate third record (index 2 stays unassigned, and a further
record would still be processed and take index 2), and sets
`bootcpu_valid`. -/
theorem enumeration_scenario :
    enumScenarioResult.cpu_logical_map 0 = 0xA ∧
    enumScenarioResult.cpu_logical_map 1 = 0xB ∧
    enumScenarioResult.cpu_logical_map 2 = INVALID_HWID ∧
    enumScenarioResult.bootcpu_valid = true ∧
    enumScenarioResult.cpu_count = 2 ∧
    enumScenarioContinued.cpu_logical_map 2 = 0xC := by
  decide

/-- C2 counterexample: when the platform boot operation refuses to release
the core, `__cpu_up` returns at once and the HandoffBlock's context and
stack fields are still populated, contradicting the claim that they are
cleared on every attempt. -/
theorem boot_refused_secondary_data_cex :
    (__cpu_up 1 7 envRefuse).outcome = CpuUpOutcome.ret (-5) ∧
    (__cpu_up 1 7 envRefuse).secondary_data.task = some 7 ∧
    (__cpu_up 1 7 envRefuse).secondary_data.stack = some 716 := by
  decide

/-- C3 counterexample: for the Stop kind the handler never returns (it
enters the unbounded spin of `ipi_cpu_stop`), and the receiving core's
pending-IPI flag is still set at the spin entry. -/
theorem handle_IPI_stop_cex :
    (handle_IPI IpiMsg.stop coreStopState).isReturned = false ∧
    (handle_IPI IpiMsg.stop coreStopState).state.pending_ipi = true ∧
    (handle_IPI IpiMsg.stop coreStopState).state.active = false := by
  decide

/-- C4 counterexample: the Backtrace broadcast of
`smp_send_all_cpu_backtrace` invokes the cross-call primitive for core 1
while leaving core 1's pending-IPI flag clear — the claim that every
broadcast, including Backtrace, first sets the targeted cores' pending
flags fails on this path. -/
theorem backtrace_broadcast_pending_cex :
    (smp_send_all_cpu_backtrace 0 [0, 1] [] btStart).2 =
      [IpiEvent.dumpSelf 0, IpiEvent.crossCall [1] IpiMsg.backtrace] ∧
    (smp_send_all_cpu_backtrace 0 [0, 1] [] btStart).1.pending_ipi 1 = false := by
  decide

/-- C5 counterexample: with zero stuck cores, two possible cores, no die
method on the calling core but a die method on the other core,
`cpus_are_stuck_in_kernel` returns true while the claim's predicate (which
requires no die operation anywhere) returns false — the code tests only
the calling core's ops. -/
theorem stuck_query_cex :
    cpus_are_stuck_in_kernel stuckEnvMixed = true ∧
    cpus_are_stuck_in_kernel_specversion stuckEnvMixed = false := by
  decide

/-- C9 counterexample: invoked on the only online core with the token
clear, `smp_send_all_cpu_backtrace` dumps the caller but never invokes the
cross-call primitive (the outstanding set is empty and the broadcast is
skipped), contradicting the claim's unconditional "broadcasts
Backtrace" step. -/
theorem backtrace_all_no_broadcast_cex :
    (smp_send_all_cpu_backtrace 0 [0] [] btStart).2 = [IpiEvent.dumpSelf 0] ∧
    (smp_send_all_cpu_backtrace 0 [0] [] btStart).1.backtrace_flag = false := by
  decide

/-- The status word is nonzero whenever the two-tier read resolves to
`CPU_KILL_ME`. -/
lemma observed_status_ne_zero_of_killme (env : CpuUpEnv)
    (hst : (if env.observed_status = CPU_MMU_OFF then env.early_boot_status
            else env.observed_status) = CPU_KILL_ME) :
    env.observed_status ≠ 0 := by
  by_cases hmm : env.observed_status = CPU_MMU_OFF
  · rw [hmm]; decide
  · rw [if_neg hmm] at hst
    rw [hst]; decide

/-- Shared classification of a bring-up attempt that failed with the status
word resolving to `CPU_KILL_ME`: a kill confirmation of 0 yields the
died-during-early-boot report and no stuck increment; a nonzero kill
result yields may-not-have-shut-down-cleanly plus the stuck-in-kernel
fall-through and one stuck increment. -/
lemma cpu_up_killme_case (cpu idle : Nat) (env : CpuUpEnv)
    (hboot : boot_secondary env.ops cpu = 0)
    (hon : env.online = false)
    (hst : (if env.observed_status = CPU_MMU_OFF then env.early_boot_status
            else env.observed_status) = CPU_KILL_ME) :
    (op_cpu_kill env.ops cpu = 0 →
      (__cpu_up cpu idle env).reports =
        [Report.failedToComeOnline, Report.diedDuringBoot] ∧
      (__cpu_up cpu idle env).stuck_delta = 0) ∧
    (op_cpu_kill env.ops cpu ≠ 0 →
      (__cpu_up cpu idle env).reports =
        [Report.failedToComeOnline, Report.mayNotHaveShutDownCleanly,
          Report.stuckInKernel] ∧
      (__cpu_up cpu idle env).stuck_delta = 1) := by
  have hobs := observed_status_ne_zero_of_killme env hst
  constructor
  · intro hkill
    simp [__cpu_up, hboot, hon, hobs, hst, hkill, EIO_val]
  · intro hkill
    simp [__cpu_up, hboot, hon, hobs, hst, hkill, EIO_val]

/-- C1 (amended): when a bring-up attempt times out with BootStatus
resolving to `KillMe`, the orchestrator attempts the firmware-assisted
kill; if the kill succeeds (returns 0) it reports died-during-early-boot,
and if the kill fails it reports may-not-have-shut-down-cleanly and falls
through to the stuck-in-kernel accounting. -/
theorem cpu_up_killme_classification (cpu idle : Nat) (env : CpuUpEnv)
    (hboot : boot_secondary env.ops cpu = 0)
    (hon : env.online = false)
    (hst : (if env.observed_status = CPU_MMU_OFF then env.early_boot_status
            else env.observed_status) = CPU_KILL_ME) :
    (op_cpu_kill env.ops cpu = 0 →
      (__cpu_up cpu idle env).reports =
        [Report.failedToComeOnline, Report.diedDuringBoot] ∧
      (__cpu_up cpu idle env).stuck_delta = 0) ∧
    (op_cpu_kill env.ops cpu ≠ 0 →
      (__cpu_up cpu idle env).reports =
        [Report.failedToComeOnline, Report.mayNotHaveShutDownCleanly,
          Report.stuckInKernel] ∧
      (__cpu_up cpu idle env).stuck_delta = 1) :=
  cpu_up_killme_case cpu idle env hboot hon hst

/-- C1 witness: the classification at the concrete failing-kill attempt. -/
theorem cpu_up_killme_classification_witness :
    (__cpu_up 1 5 envKillFail).reports =
      [Report.failedToComeOnline, Report.mayNotHaveShutDownCleanly,
        Report.stuckInKernel] ∧
    (__cpu_up 1 5 envKillFail).stuck_delta = 1 :=
  (cpu_up_killme_classification 1 5 envKillFail rfl rfl (by decide)).2 (by decide)

/-- C10: a core whose ops provide no kill method gets a successful (zero)
kill confirmation from `op_cpu_kill`, so a `KillMe` bring-up failure on it
is reported as died-during-early-boot and leaves the stuck-core counter
untouched. -/
theorem op_cpu_kill_default_success (cpu idle : Nat) (env : CpuUpEnv)
    (hkill : env.ops.cpu_kill = none)
    (hboot : boot_secondary env.ops cpu = 0)
    (hon : env.online = false)
    (hst : (if env.observed_status = CPU_MMU_OFF then env.early_boot_status
            else env.observed_status) = CPU_KILL_ME) :
    op_cpu_kill env.ops cpu = 0 ∧
    (__cpu_up cpu idle env).reports =
      [Report.failedToComeOnline, Report.diedDuringBoot] ∧
    (__cpu_up cpu idle env).stuck_delta = 0 := by
  have hk : op_cpu_kill env.ops cpu = 0 := by
    unfold op_cpu_kill
    rw [hkill]
  exact ⟨hk, (cpu_up_killme_case cpu idle env hboot hon hst).1 hk⟩

/-- C10 witness: the kill-less attempt at a concrete input. -/
theorem op_cpu_kill_default_success_witness :
    op_cpu_kill envNoKill.ops 2 = 0 ∧
    (__cpu_up 2 9 envNoKill).reports =
      [Report.failedToComeOnline, Report.diedDuringBoot] ∧
    (__cpu_up 2 9 envNoKill).stuck_delta = 0 :=
  op_cpu_kill_default_success 2 9 envNoKill rfl rfl rfl (by decide)

/-- C2 (amended): whenever the platform boot operation releases the core
(returns 0), the HandoffBlock's context and stack fields are cleared by
the time `__cpu_up` returns, whether or not the core came online; when the
boot operation refuses, `__cpu_up` returns early with the fields still
populated. -/
theorem cpu_up_clears_secondary_data (cpu idle : Nat) (env : CpuUpEnv)
    (hboot : boot_secondary env.ops cpu = 0) :
    (__cpu_up cpu idle env).secondary_data.task = none ∧
    (__cpu_up cpu idle env).secondary_data.stack = none := by
  simp only [__cpu_up, hboot]
  split_ifs <;> exact ⟨rfl, rfl⟩

/-- C2 witness: a released-but-offline attempt clears the fields. -/
theorem cpu_up_clears_secondary_data_witness :
    (__cpu_up 1 5 envKillFail).secondary_data.task = none ∧
    (__cpu_up 1 5 envKillFail).secondary_data.stack = none :=
  cpu_up_clears_secondary_data 1 5 envKillFail rfl

/-- When the boot operation releases the core and it is online at the end
of the wait, `__cpu_up` returns 0. -/
lemma cpu_up_outcome_online (cpu idle : Nat) (env : CpuUpEnv)
    (hboot : boot_secondary env.ops cpu = 0) (hon : env.online = true) :
    (__cpu_up cpu idle env).outcome = CpuUpOutcome.ret 0 := by
  simp [__cpu_up, hboot, hon]

/-- When the boot operation releases the core and it is not online at the
end of the wait, `__cpu_up` either returns `-EIO_val` or panics. -/
lemma cpu_up_outcome_offline (cpu idle : Nat) (env : CpuUpEnv)
    (hboot : boot_secondary env.ops cpu = 0) (hon : env.online = false) :
    (__cpu_up cpu idle env).outcome = CpuUpOutcome.ret (-EIO_val) ∨
    (__cpu_up cpu idle env).outcome = CpuUpOutcome.panicked := by
  simp only [__cpu_up, hboot, hon]
  split_ifs <;> simp_all

/-- C7: after the platform boot operation releases the core, `__cpu_up`
returns success (0) iff the core's online flag is set by the time the
bounded wait ends; when it is not online, any value `__cpu_up` returns is
a failure code (in the panic-status case it does not return at all). -/
theorem cpu_up_success_iff_online (cpu idle : Nat) (env : CpuUpEnv)
    (hboot : boot_secondary env.ops cpu = 0) :
    ((__cpu_up cpu idle env).outcome = CpuUpOutcome.ret 0 ↔ env.online = true) ∧
    (env.online = false →
      ∀ c : Int, (__cpu_up cpu idle env).outcome = CpuUpOutcome.ret c → c ≠ 0) := by
  constructor
  · constructor
    · intro hout
      by_contra hno
      have hon : env.online = false := by
        cases h : env.online
        · rfl
        · exact absurd h hno
      rcases cpu_up_outcome_offline cpu idle env hboot hon with h1 | h1 <;>
        rw [hout] at h1
      · have : (0 : Int) = -EIO_val := CpuUpOutcome.ret.inj h1
        revert this
        decide
      · exact CpuUpOutcome.noConfusion h1
    · intro hon
      exact cpu_up_outcome_online cpu idle env hboot hon
  · intro hon c hc
    rcases cpu_up_outcome_offline cpu idle env hboot hon with h1 | h1 <;>
      rw [hc] at h1
    · have : c = -EIO_val := CpuUpOutcome.ret.inj h1
      rw [this]
      decide
    · exact CpuUpOutcome.noConfusion h1

/-- A released attempt whose core comes online in time. -/
def envOnline : CpuUpEnv :=
  { ops := opsNoKill, online := true, observed_status := CPU_BOOT_SUCCESS
    early_boot_status := CPU_BOOT_SUCCESS
    task_stack_page := fun i => 100 * i, THREAD_START_SP := 16 }

/-- C7 witness: a released and online attempt returns 0. -/
theorem cpu_up_success_iff_online_witness :
    (__cpu_up 3 11 envOnline).outcome = CpuUpOutcome.ret 0 :=
  (cpu_up_success_iff_online 3 11 envOnline rfl).1.mpr rfl

/-- C3 (amended): for every IPI message kind other than Stop the handler
terminates and clears the receiving core's pending-IPI flag on exit; for
the Stop kind the handler marks the core inactive and spins forever,
never clearing the pending flag. -/
theorem handle_IPI_pending_flag (msg : IpiMsg) (s : CoreState) :
    (msg ≠ IpiMsg.stop →
      (handle_IPI msg s).isReturned = true ∧
      (handle_IPI msg s).state.pending_ipi = false) ∧
    (msg = IpiMsg.stop →
      (handle_IPI msg s).isReturned = false ∧
      (handle_IPI msg s).state.pending_ipi = s.pending_ipi ∧
      (handle_IPI msg s).state.active = false) := by
  cases msg <;>
    simp [handle_IPI, ipi_cpu_stop, ipi_cpu_backtrace,
      HandlerOutcome.isReturned, HandlerOutcome.state]

/-- C3 witness: a Reschedule IPI returns with the pending flag cleared. -/
theorem handle_IPI_pending_flag_witness :
    (handle_IPI IpiMsg.resched coreStopState).isReturned = true ∧
    (handle_IPI IpiMsg.resched coreStopState).state.pending_ipi = false :=
  (handle_IPI_pending_flag IpiMsg.resched coreStopState).1 (by decide)

/-- A core outside the mask keeps its old pending flag through the
per-core loop of `smp_cross_call_common`. -/
lemma set_pending_each_of_not_mem (mask : List Nat) (pending : Nat → Bool)
    (c : Nat) (h : c ∉ mask) :
    set_pending_each mask pending c = pending c := by
  induction mask generalizing pending with
  | nil => rfl
  | cons a rest ih =>
    have hc : c ∉ rest := fun hr => h (List.mem_cons_of_mem _ hr)
    have ha : c ≠ a := fun he => h (he ▸ List.mem_cons_self a rest)
    rw [set_pending_each, ih _ hc]
    simp [ha]

/-- A core in the mask ends up with its pending flag set by the loop. -/
lemma set_pending_each_of_mem (mask : List Nat) (pending : Nat → Bool)
    (c : Nat) (h : c ∈ mask) :
    set_pending_each mask pending c = true := by
  induction mask generalizing pending with
  | nil => cases h
  | cons a rest ih =>
    by_cases hc : c ∈ rest
    · exact ih _ hc
    · have ha : c = a := by
        rcases List.mem_cons.mp h with h1 | h2
        · exact h1
        · exact absurd h2 hc
      rw [set_pending_each, set_pending_each_of_not_mem rest _ c hc]
      simp [ha]

/-- C4 (amended): every broadcast through `smp_cross_call_common` first
sets the pending-IPI flag of each core in the mask (leaving other cores'
flags untouched) and then invokes the platform cross-call primitive
exactly once with the full mask and kind; the Backtrace broadcast of
`smp_send_all_cpu_backtrace`, however, goes through `smp_cross_call`
directly and leaves every pending flag unchanged. -/
theorem broadcast_sets_pending_then_calls (mask : List Nat) (kind : IpiMsg)
    (pending : Nat → Bool) :
    (∀ c, c ∈ mask → (smp_cross_call_common mask kind pending).1 c = true) ∧
    (∀ c, c ∉ mask → (smp_cross_call_common mask kind pending).1 c = pending c) ∧
    ((smp_cross_call_common mask kind pending).2 = [IpiEvent.crossCall mask kind]) ∧
    (∀ this_cpu online responders (s : BtState) (c : Nat),
      (smp_send_all_cpu_backtrace this_cpu online responders s).1.pending_ipi c =
        s.pending_ipi c) := by
  refine ⟨fun c hc => set_pending_each_of_mem mask pending c hc,
    fun c hc => set_pending_each_of_not_mem mask pending c hc, rfl, ?_⟩
  intro this_cpu online responders s c
  unfold smp_send_all_cpu_backtrace
  split <;> rfl

/-- C4 witness: a concrete common broadcast sets the targeted core's
flag. -/
theorem broadcast_sets_pending_then_calls_witness :
    (smp_cross_call_common [1, 2] IpiMsg.resched (fun _ => false)).1 2 = true :=
  (broadcast_sets_pending_then_calls [1, 2] IpiMsg.resched (fun _ => false)).1 2
    (by decide)

/-- C5 (amended): the stuck-core query returns true iff the stuck-core
counter is nonzero, or more than one core is possible and the core the
query runs on lacks a die operation; in particular, with a die operation
present on every configured core and zero stuck cores it returns false. -/
theorem cpus_are_stuck_in_kernel_characterization (env : StuckEnv) :
    (cpus_are_stuck_in_kernel env = true ↔
      env.cpus_stuck_in_kernel ≠ 0 ∨
        (env.num_possible_cpus > 1 ∧ have_cpu_die env = false)) ∧
    (env.cpus_stuck_in_kernel = 0 → env.this_cpu < env.nr_cpus →
      (∀ c, c < env.nr_cpus → has_cpu_die (env.cpu_ops c) = true) →
      cpus_are_stuck_in_kernel env = false) := by
  constructor
  · simp [cpus_are_stuck_in_kernel, Bool.or_eq_true, Bool.and_eq_true,
      decide_eq_true_iff, Bool.not_eq_eq_eq_not]
  · intro hzero hlt hall
    have hdie : have_cpu_die env = true := hall env.this_cpu hlt
    simp [cpus_are_stuck_in_kernel, hzero, hdie]

/-- C5 witness: die operation on every core, zero stuck cores, query
false. -/
theorem cpus_are_stuck_in_kernel_characterization_witness :
    cpus_are_stuck_in_kernel stuckEnvAllDie = false :=
  (cpus_are_stuck_in_kernel_characterization stuckEnvAllDie).2 rfl (by decide)
    (fun _ _ => rfl)

/-- C8: with no die operation on the target core the pre-disable check
fails with `-EOPNOTSUPP`, and on any failure of the pre-disable check
`__cpu_disable` returns before clearing the core's online flag or
migrating interrupts — the hotplug state is returned unchanged. -/
theorem cpu_disable_unsupported_and_frame (cpu : Nat) (ops : Option CpuOps)
    (s : HotplugState) :
    (has_cpu_die ops = false → __cpu_disable cpu ops s = (-EOPNOTSUPP, s)) ∧
    (∀ r s2, __cpu_disable cpu ops s = (r, s2) → r ≠ 0 → s2 = s) := by
  constructor
  · intro h
    unfold __cpu_disable op_cpu_disable
    rw [h]
    simp [EOPNOTSUPP]
  · intro r s2 hres hr
    by_cases h : op_cpu_disable ops cpu = 0
    · simp [__cpu_disable, h] at hres
      exact absurd hres.1.symm hr
    · simp [__cpu_disable, h] at hres
      exact hres.2.symm

/-- C8 witness: a die-less core is refused and the state is untouched. -/
theorem cpu_disable_unsupported_and_frame_witness :
    __cpu_disable 2 (some opsNoDie) hotplugS0 = (-EOPNOTSUPP, hotplugS0) :=
  (cpu_disable_unsupported_and_frame 2 (some opsNoDie) hotplugS0).1 rfl

/-- C9 (amended): if the single-flight token is already set,
`smp_send_all_cpu_backtrace` returns immediately with the state untouched
and nothing dumped; otherwise it ends with the token released, the
outstanding set holds exactly the online cores other than the caller that
did not respond within the wait, the caller is dumped synchronously
first, and the Backtrace cross call is issued — once, with the full
online-minus-self mask — exactly when that mask is nonempty. -/
theorem backtrace_all_behaviour (this_cpu : Nat) (online responders : List Nat)
    (s : BtState) :
    (s.backtrace_flag = true →
      smp_send_all_cpu_backtrace this_cpu online responders s = (s, [])) ∧
    (s.backtrace_flag = false →
      ((smp_send_all_cpu_backtrace this_cpu online responders s).1.backtrace_flag
          = false) ∧
      (∀ c, c ∈ (smp_send_all_cpu_backtrace this_cpu online responders s).1.backtrace_mask
          ↔ (c ∈ online ∧ c ≠ this_cpu ∧ c ∉ responders)) ∧
      ((smp_send_all_cpu_backtrace this_cpu online responders s).2 =
        IpiEvent.dumpSelf this_cpu ::
          (if online.filter (fun c => decide (c ≠ this_cpu)) = [] then []
           else [IpiEvent.crossCall (online.filter fun c => decide (c ≠ this_cpu))
              IpiMsg.backtrace]))) := by
  constructor
  · intro h
    simp [smp_send_all_cpu_backtrace, h]
  · intro h
    simp only [smp_send_all_cpu_backtrace, h, Bool.false_eq_true, if_false,
      smp_cross_call]
    refine ⟨trivial, ?_, ?_⟩
    · intro c
      simp [List.mem_filter, and_assoc]
      tauto
    · cases hm : online.filter (fun c => decide (c ≠ this_cpu)) with
      | nil => simp [hm]
      | cons a t => simp [hm]

/-- C9 witness: with the token already held, the call is a silent no-op. -/
theorem backtrace_all_behaviour_witness :
    smp_send_all_cpu_backtrace 1 [0, 1] [] btBusy = (btBusy, []) :=
  (backtrace_all_behaviour 1 [0, 1] [] btBusy).1 rfl

end Smp
